import Mathlib

/-!
Shallow embedding of `plugin.cpp` from vs-waifu2x-ncnn-vulkan.

The plugin registers one filter constructor (`waifu2xCreate`), a per-frame
worker (`filter`, whose concurrency gate is modelled by `GateStep`), and a
teardown callback (`waifu2xFree`).  The embedding keeps the process-wide GPU
instance reference counter (`numGPUInstances` in the source) as an explicit
`Int` threaded through the operations, and records as observable outcome
which of the construction paths was taken: an error message, the device
listing short-circuit, the pass-through short-circuit, or a constructed
filter object.  External collaborators (VapourSynth API, ncnn, the model
files on disk) are supplied as an environment record of pure functions.
-/

namespace Waifu2x

/-- Color family constant `cfUndefined` from VapourSynth4.h. -/
def cfUndefined : Int := 0

/-- Color family constant `cfGray` from VapourSynth4.h. -/
def cfGray : Int := 1

/-- Color family constant `cfRGB` from VapourSynth4.h. -/
def cfRGB : Int := 2

/-- Color family constant `cfYUV` from VapourSynth4.h. -/
def cfYUV : Int := 3

/-- Sample type constant `stInteger` from VapourSynth4.h. -/
def stInteger : Int := 0

/-- Sample type constant `stFloat` from VapourSynth4.h. -/
def stFloat : Int := 1

/-- The fields of `VSVideoFormat` read by the plugin. -/
structure VSVideoFormat where
  colorFamily : Int
  sampleType : Int
  bitsPerSample : Int
  deriving Repr, DecidableEq, Inhabited

/-- The fields of `VSVideoInfo` read by the plugin. -/
structure VSVideoInfo where
  format : VSVideoFormat
  width : Int
  height : Int
  deriving Repr, DecidableEq, Inhabited

/-- The input argument map of `waifu2xCreate`: each optional integer argument
is `none` when the key is absent.  (`tta`, `fp32` and `list_gpu` are read with
`mapGetInt` and tested for non-zero; the rest with `mapGetIntSaturated`.) -/
structure InMap where
  noise : Option Int := none
  scale : Option Int := none
  tile_w : Option Int := none
  tile_h : Option Int := none
  model : Option Int := none
  gpu_id : Option Int := none
  gpu_thread : Option Int := none
  tta : Option Int := none
  fp32 : Option Int := none
  list_gpu : Option Int := none
  deriving Repr, DecidableEq, Inhabited

/-- The external collaborators (ncnn GPU queries, the filesystem probe for the
model parameter file, the text plugin invocation, the plugin path) as pure
data supplied to the embedding. -/
structure NcnnEnv where
  gpu_count : Int
  default_gpu_index : Int
  compute_queue_count : Int → Int
  device_name : Int → String
  create_gpu_ok : Bool
  param_file_openable : String → Bool
  text_invoke_error : Option String
  plugin_path : String

/-- `mapGetInt`: missing key yields 0 (with the error flag set, which the
plugin only consults for the boolean options by testing the value). -/
def mapGetInt (v : Option Int) : Int :=
  match v with
  | none => 0
  | some x => x

/-- Saturating conversion of an int64 map value to int32, as performed by
`mapGetIntSaturated`. -/
def saturate32 (x : Int) : Int :=
  max (-(2 ^ 31)) (min x (2 ^ 31 - 1))

/-- `mapGetIntSaturated`: value (0 on a missing key) and the error flag. -/
def mapGetIntSaturated (v : Option Int) : Int × Bool :=
  match v with
  | none => (0, true)
  | some x => (saturate32 x, false)

/-- The options as resolved by `waifu2xCreate` (plugin.cpp lines 112-139):
each read is a `mapGetIntSaturated` / `mapGetInt` call, with the default
substituted when the error flag was set.  Note that `noise` has no default
branch in the source: a missing key leaves the raw return value 0. -/
structure ResolvedOpts where
  noise : Int
  scale : Int
  tile_w : Int
  tile_h : Int
  model : Int
  gpuId : Int
  gpuThread : Int
  tta : Bool
  fp32 : Bool
  deriving Repr, DecidableEq, Inhabited

/-- Option resolution from `waifu2xCreate` (plugin.cpp lines 112-139). -/
def resolveOptions (inm : InMap) (env : NcnnEnv) (vi : VSVideoInfo) : ResolvedOpts :=
  { noise := (mapGetIntSaturated inm.noise).1,
    scale := if (mapGetIntSaturated inm.scale).2 then 2 else (mapGetIntSaturated inm.scale).1,
    tile_w := if (mapGetIntSaturated inm.tile_w).2 then max vi.width 32 else (mapGetIntSaturated inm.tile_w).1,
    tile_h := if (mapGetIntSaturated inm.tile_h).2 then max vi.height 32 else (mapGetIntSaturated inm.tile_h).1,
    model := if (mapGetIntSaturated inm.model).2 then 2 else (mapGetIntSaturated inm.model).1,
    gpuId := if (mapGetIntSaturated inm.gpu_id).2 then env.default_gpu_index else (mapGetIntSaturated inm.gpu_id).1,
    gpuThread := if (mapGetIntSaturated inm.gpu_thread).2 then 2 else (mapGetIntSaturated inm.gpu_thread).1,
    tta := mapGetInt inm.tta != 0,
    fp32 := mapGetInt inm.fp32 != 0 }

/-- `vsh::isConstantVideoFormat` from VSHelper4.h: defined color family and
positive dimensions. -/
def isConstantVideoFormat (vi : VSVideoInfo) : Bool :=
  vi.format.colorFamily != cfUndefined && decide (0 < vi.width) && decide (0 < vi.height)

/-- The input-format gate of `waifu2xCreate` (plugin.cpp lines 102-105):
constant-format planar RGB with 32-bit float samples. -/
def formatOk (vi : VSVideoInfo) : Bool :=
  isConstantVideoFormat vi && vi.format.colorFamily == cfRGB &&
    vi.format.sampleType == stFloat && vi.format.bitsPerSample == 32

/-- Characters of a string that precede its last slash; `none` when the
string has no slash. -/
def upToLastSlashAux : List Char → Option (List Char)
  | [] => none
  | c :: rest =>
      match upToLastSlashAux rest with
      | some tail => some (c :: tail)
      | none => if c = '/' then some [] else none

/-- `pluginPath.substr(0, pluginPath.rfind(slash))`: everything before the
last slash, or the whole string when there is none (`npos` semantics). -/
def upToLastSlash (s : String) : String :=
  match upToLastSlashAux s.toList with
  | some cs => String.mk cs
  | none => s

/-- The model directory selected by the `switch (model)` in `waifu2xCreate`
(plugin.cpp lines 209-227), rooted next to the plugin binary. -/
def modelDirFor (env : NcnnEnv) (model : Int) : String :=
  if model = 0 then upToLastSlash env.plugin_path ++ "/models/models-upconv_7_anime_style_art_rgb"
  else if model = 1 then upToLastSlash env.plugin_path ++ "/models/models-upconv_7_photo"
  else if model = 2 then upToLastSlash env.plugin_path ++ "/models/models-cunet"
  else upToLastSlash env.plugin_path ++ "/models"

/-- The `prepadding` constant selected by the `switch (model)` in
`waifu2xCreate` (plugin.cpp lines 212-227). -/
def prepaddingFor (model noise scale : Int) : Int :=
  if model = 0 then 7
  else if model = 1 then 7
  else if model = 2 then (if noise = -1 ∨ scale = 2 then 18 else 28)
  else 0

/-- The `.param` weight path selected in `waifu2xCreate`
(plugin.cpp lines 229-240). -/
def paramPathFor (modelDir : String) (noise scale : Int) : String :=
  if noise = -1 then modelDir ++ "/scale2.0x_model.param"
  else if scale = 1 then modelDir ++ "/noise" ++ toString noise ++ "_model.param"
  else modelDir ++ "/noise" ++ toString noise ++ "_scale2.0x_model.param"

/-- The `.bin` weight path selected in `waifu2xCreate`
(plugin.cpp lines 229-240). -/
def modelPathFor (modelDir : String) (noise scale : Int) : String :=
  if noise = -1 then modelDir ++ "/scale2.0x_model.bin"
  else if scale = 1 then modelDir ++ "/noise" ++ toString noise ++ "_model.bin"
  else modelDir ++ "/noise" ++ toString noise ++ "_scale2.0x_model.bin"

/-- The device listing text built in the `list_gpu` branch
(plugin.cpp lines 166-169). -/
def deviceListText (env : NcnnEnv) : String :=
  (List.range env.gpu_count.toNat).foldl
    (fun acc i => acc ++ toString i ++ ": " ++ env.device_name (Int.ofNat i) ++ "\n") ""

/-- The validation chain of `waifu2xCreate` (plugin.cpp lines 141-163),
returning the message of the first failing check. -/
def validate (r : ResolvedOpts) (env : NcnnEnv) : Option String :=
  if r.noise < -1 ∨ r.noise > 3 then some ("noise must be between -1 and 3 (inclusive)")
  else if r.scale < 1 ∨ r.scale > 2 then some ("scale must be 1 or 2")
  else if r.tile_w < 32 then some ("tile_w must be at least 32")
  else if r.tile_h < 32 then some ("tile_h must be at least 32")
  else if r.model < 0 ∨ r.model > 2 then some ("model must be between 0 and 2 (inclusive)")
  else if r.model ≠ 2 ∧ r.scale = 1 then some ("only cunet model supports scale=1")
  else if r.gpuId < 0 ∨ r.gpuId ≥ env.gpu_count then some ("invalid GPU device")
  else if r.gpuThread < 1 ∨ r.gpuThread > env.compute_queue_count r.gpuId then
    some ("gpu_thread must be between 1 and " ++ toString (env.compute_queue_count r.gpuId) ++ " (inclusive)")
  else none

/-- The `Waifu2x` engine object as configured by `waifu2xCreate`: the
constructor arguments (plugin.cpp line 247), the load arguments, and the
fields assigned after loading (plugin.cpp lines 261-265). -/
structure Waifu2xEngine where
  gpuid : Int
  tta : Bool
  num_threads : Int
  paramPath : String
  modelPath : String
  fp32 : Bool
  noise : Int
  scale : Int
  tile_w : Int
  tile_h : Int
  prepadding : Int
  deriving Repr, DecidableEq, Inhabited

/-- The `Waifu2xData` instance data handed to `createVideoFilter`: scaled
video info, configured engine, and the permit count of the counting
semaphore (plugin.cpp line 267). -/
structure Waifu2xData where
  vi : VSVideoInfo
  waifu2x : Waifu2xEngine
  semaphorePermits : Int
  deriving Repr, DecidableEq, Inhabited

/-- What `waifu2xCreate` leaves in the output map: an error message, the
text-plugin clip listing the devices, the source node forwarded unchanged
(carrying its original video info), or a constructed video filter. -/
inductive CreateOutcome where
  | error (msg : String)
  | listGPU (text : String)
  | passThrough (vi : VSVideoInfo)
  | filter (d : Waifu2xData)
  deriving Repr, DecidableEq, Inhabited

/-- Projection of the filter payload of a `CreateOutcome`. -/
def CreateOutcome.filterData? : CreateOutcome → Option Waifu2xData
  | .filter d => some d
  | _ => none

/-- Observable result of one `waifu2xCreate` call: the outcome, the value of
`numGPUInstances` afterwards, whether the GPU instance was acquired
(`create_gpu_instance` succeeded) during the call, whether
`destroy_gpu_instance` was called during the call, and whether a `Waifu2x`
engine was constructed. -/
structure CreateResult where
  outcome : CreateOutcome
  count : Int
  acquiredGPU : Bool
  destroyedGPU : Bool
  engineConstructed : Bool
  deriving Repr, DecidableEq, Inhabited

/-- The catch handler of `waifu2xCreate` (plugin.cpp lines 268-276) for a
throw raised BEFORE `++numGPUInstances`: the handler still executes
`--numGPUInstances` and destroys the GPU instance if the count reaches 0. -/
def errBefore (msg : String) (count0 : Int) : CreateResult :=
  { outcome := .error ("waifu2x-ncnn-Vulkan: " ++ msg),
    count := count0 - 1,
    acquiredGPU := false,
    destroyedGPU := decide (count0 - 1 = 0),
    engineConstructed := false }

/-- The catch handler of `waifu2xCreate` (plugin.cpp lines 268-276) for a
throw raised after `++numGPUInstances` (argument `c1` is the incremented
count): decrement, destroying the GPU instance at zero. -/
def errAfter (msg : String) (c1 : Int) : CreateResult :=
  { outcome := .error ("waifu2x-ncnn-Vulkan: " ++ msg),
    count := c1 - 1,
    acquiredGPU := true,
    destroyedGPU := decide (c1 - 1 = 0),
    engineConstructed := false }

/-- The filter instance data built on the successful path of `waifu2xCreate`
(plugin.cpp lines 206-267): video info scaled by `scale`, the engine
constructed with `Waifu2x(gpuId, tta, 1)`, loaded from the derived weight
paths, its fields assigned, and the semaphore holding `gpuThread` permits. -/
def buildData (r : ResolvedOpts) (env : NcnnEnv) (vi : VSVideoInfo) : Waifu2xData :=
  { vi := { vi with width := vi.width * r.scale, height := vi.height * r.scale },
    waifu2x :=
      { gpuid := r.gpuId,
        tta := r.tta,
        num_threads := 1,
        paramPath := paramPathFor (modelDirFor env r.model) r.noise r.scale,
        modelPath := modelPathFor (modelDirFor env r.model) r.noise r.scale,
        fp32 := r.fp32,
        noise := r.noise,
        scale := r.scale,
        tile_w := r.tile_w,
        tile_h := r.tile_h,
        prepadding := prepaddingFor r.model r.noise r.scale },
    semaphorePermits := r.gpuThread }

/-- The part of `waifu2xCreate` that runs after `create_gpu_instance`
succeeded and `numGPUInstances` was incremented to `c1` (plugin.cpp lines
112-280): resolve options, validate, take the `list_gpu` or pass-through
short-circuits (each releasing the GPU reference), probe the parameter file,
and otherwise build the filter instance. -/
def createAfterGPU (inm : InMap) (env : NcnnEnv) (vi : VSVideoInfo) (c1 : Int) : CreateResult :=
  match validate (resolveOptions inm env vi) env with
  | some msg => errAfter msg c1
  | none =>
    if mapGetInt inm.list_gpu ≠ 0 then
      match env.text_invoke_error with
      | some e =>
          { outcome := .error e, count := c1 - 1, acquiredGPU := true,
            destroyedGPU := decide (c1 - 1 = 0), engineConstructed := false }
      | none =>
          { outcome := .listGPU (deviceListText env), count := c1 - 1, acquiredGPU := true,
            destroyedGPU := decide (c1 - 1 = 0), engineConstructed := false }
    else if (resolveOptions inm env vi).noise = -1 ∧ (resolveOptions inm env vi).scale = 1 then
      { outcome := .passThrough vi, count := c1 - 1, acquiredGPU := true,
        destroyedGPU := decide (c1 - 1 = 0), engineConstructed := false }
    else if env.param_file_openable
        (paramPathFor (modelDirFor env (resolveOptions inm env vi).model)
          (resolveOptions inm env vi).noise (resolveOptions inm env vi).scale) then
      { outcome := .filter (buildData (resolveOptions inm env vi) env vi),
        count := c1, acquiredGPU := true, destroyedGPU := false, engineConstructed := true }
    else errAfter ("failed to load model") c1

/-- `waifu2xCreate` (plugin.cpp lines 94-281): format gate, GPU instance
acquisition with reference-count increment, then the rest.  Both pre-increment
throws land in the same catch handler, which decrements the counter. -/
def waifu2xCreate (inm : InMap) (env : NcnnEnv) (vi : VSVideoInfo) (count0 : Int) : CreateResult :=
  if formatOk vi then
    if env.create_gpu_ok then createAfterGPU inm env vi (count0 + 1)
    else errBefore ("failed to create GPU instance") count0
  else errBefore ("only constant RGB format 32 bit float input supported") count0

/-- `waifu2xFree` (plugin.cpp lines 85-92): decrement `numGPUInstances`,
destroying the GPU instance exactly when it reaches zero.  Returns the new
count and whether `destroy_gpu_instance` was called. -/
def waifu2xFree (count0 : Int) : Int × Bool :=
  (count0 - 1, decide (count0 - 1 = 0))

/-- Counting abstraction of the threads concurrently executing `filter`
(plugin.cpp lines 49-64) against one filter instance's semaphore: how many
permits the semaphore holds, and how many threads are before `acquire`,
between `acquire` and the return of `process`, between that return and
`release`, and past `release`. -/
structure GateState where
  permits : Nat
  nStart : Nat
  nHolding : Nat
  nReturned : Nat
  nDone : Nat
  deriving Repr, DecidableEq, Inhabited

/-- Initial gate state: the semaphore constructed with `cap` permits
(plugin.cpp line 267) and `n` frame-processing threads about to enter
`filter`. -/
def GateState.init (cap n : Nat) : GateState :=
  { permits := cap, nStart := n, nHolding := 0, nReturned := 0, nDone := 0 }

/-- One interleaving step of the threads running `filter` (plugin.cpp lines
61-63): `acquire` consumes a permit and enters the `process` call (enabled
only when a permit is available), `procRet` is the return of the engine's
`process`, and `release` returns the permit. -/
inductive GateStep : GateState → GateState → Prop
  | acquire (s : GateState) (hp : 0 < s.permits) (hs : 0 < s.nStart) :
      GateStep s
        { permits := s.permits - 1, nStart := s.nStart - 1, nHolding := s.nHolding + 1,
          nReturned := s.nReturned, nDone := s.nDone }
  | procRet (s : GateState) (hh : 0 < s.nHolding) :
      GateStep s { s with nHolding := s.nHolding - 1, nReturned := s.nReturned + 1 }
  | release (s : GateState) (hr : 0 < s.nReturned) :
      GateStep s
        { s with permits := s.permits + 1, nReturned := s.nReturned - 1, nDone := s.nDone + 1 }

/-- The constraints named by the specification's validation-order claim, in
the order it states them. -/
inductive Violation where
  | noiseRange
  | scaleRange
  | tileW
  | tileH
  | modelRange
  | scaleNeedsCunet
  | badDevice
  | gpuThreadRange
  deriving Repr, DecidableEq, Inhabited

/-- The error message the plugin emits for each violated constraint
(the `gpu_thread` message embeds the device's compute-queue count). -/
def violationMsg (r : ResolvedOpts) (env : NcnnEnv) : Violation → String
  | .noiseRange => "noise must be between -1 and 3 (inclusive)"
  | .scaleRange => "scale must be 1 or 2"
  | .tileW => "tile_w must be at least 32"
  | .tileH => "tile_h must be at least 32"
  | .modelRange => "model must be between 0 and 2 (inclusive)"
  | .scaleNeedsCunet => "only cunet model supports scale=1"
  | .badDevice => "invalid GPU device"
  | .gpuThreadRange =>
      "gpu_thread must be between 1 and " ++ toString (env.compute_queue_count r.gpuId) ++ " (inclusive)"

/-- First violated constraint, written from the specification's wording of
the validation rules and their order: noise in [-1,3], scale 1 or 2,
tile_w ≥ 32, tile_h ≥ 32, model 0, 1 or 2, then scale=1 only with the
cunet model, then a valid device id, then gpu_thread within the device's
compute-queue budget. -/
def firstViolation (r : ResolvedOpts) (env : NcnnEnv) : Option Violation :=
  if ¬(-1 ≤ r.noise ∧ r.noise ≤ 3) then some Violation.noiseRange
  else if ¬(r.scale = 1 ∨ r.scale = 2) then some Violation.scaleRange
  else if ¬(32 ≤ r.tile_w) then some Violation.tileW
  else if ¬(32 ≤ r.tile_h) then some Violation.tileH
  else if ¬(r.model = 0 ∨ r.model = 1 ∨ r.model = 2) then some Violation.modelRange
  else if r.scale = 1 ∧ r.model ≠ 2 then some Violation.scaleNeedsCunet
  else if ¬(0 ≤ r.gpuId ∧ r.gpuId < env.gpu_count) then some Violation.badDevice
  else if ¬(1 ≤ r.gpuThread ∧ r.gpuThread ≤ env.compute_queue_count r.gpuId) then some Violation.gpuThreadRange
  else none

/-- Test environment: one GPU with eight compute queues, a working GPU
instance, every model file present, and a working text plugin. -/
def testEnv : NcnnEnv :=
  { gpu_count := 1,
    default_gpu_index := 0,
    compute_queue_count := fun _ => 8,
    device_name := fun _ => "Test Device",
    create_gpu_ok := true,
    param_file_openable := fun _ => true,
    text_invoke_error := none,
    plugin_path := "/usr/lib/vapoursynth/libwaifu2x.so" }

/-- A 640x480 constant-format planar RGB 32-bit float clip. -/
def testVi : VSVideoInfo :=
  { format := { colorFamily := cfRGB, sampleType := stFloat, bitsPerSample := 32 },
    width := 640, height := 480 }

/-- A 16x16 constant-format planar RGB 32-bit float clip (dimensions below
the minimum tile size). -/
def smallVi : VSVideoInfo :=
  { format := { colorFamily := cfRGB, sampleType := stFloat, bitsPerSample := 32 },
    width := 16, height := 16 }

/-- A clip of unsupported format (YUV, 8-bit integer samples). -/
def badVi : VSVideoInfo :=
  { format := { colorFamily := cfYUV, sampleType := stInteger, bitsPerSample := 8 },
    width := 640, height := 480 }

/-- An argument map with every optional argument absent. -/
def emptyIn : InMap := {}

/-- Arguments requesting the pass-through configuration. -/
def inPass : InMap := { noise := some (-1), scale := some 1 }

/-- Arguments with an out-of-range noise level. -/
def inNoise4 : InMap := { noise := some 4 }

/-- Arguments requesting the device listing. -/
def inList : InMap := { list_gpu := some 1 }

/-- Arguments supplying only a tile height, leaving the tile width to its
default. -/
def inTileH : InMap := { tile_h := some 64 }

/-- The filter instance data produced by a default construction against the
test environment. -/
def testFilterD : Waifu2xData :=
  ((waifu2xCreate emptyIn testEnv testVi 0).outcome.filterData?).getD default

/-- Every state reachable from the initial gate state keeps the sum of free
permits, threads holding a permit inside `process`, and threads holding a
permit after `process` equal to the semaphore's capacity. -/
theorem gate_sum_invariant (cap n : Nat) (s : GateState)
    (h : Relation.ReflTransGen GateStep (GateState.init cap n) s) :
    s.permits + s.nHolding + s.nReturned = cap := by
  induction h with
  | refl => rfl
  | tail _ hstep ih => cases hstep <;> simp_all <;> omega

/-- Inversion for the successful construction path: the filter payload of a
`waifu2xCreate` call is exactly `buildData` of the resolved options. -/
theorem create_filter_inv (inm : InMap) (env : NcnnEnv) (vi : VSVideoInfo) (c0 : Int)
    (d : Waifu2xData) (h : (waifu2xCreate inm env vi c0).outcome = CreateOutcome.filter d) :
    d = buildData (resolveOptions inm env vi) env vi := by
  unfold waifu2xCreate createAfterGPU errBefore errAfter at h
  split at h
  · split at h
    · split at h
      · simp at h
      · split at h
        · split at h <;> simp at h
        · split at h
          · simp at h
          · split at h
            · simpa using h.symm
            · simp at h
    · simp at h
  · simp at h

/-- The validation chain of the code reports exactly the message of the first
constraint violated in the specification's stated order. -/
theorem validate_eq_firstViolation (r : ResolvedOpts) (env : NcnnEnv) :
    validate r env = Option.map (violationMsg r env) (firstViolation r env) := by
  unfold validate firstViolation
  by_cases h1 : r.noise < -1 ∨ r.noise > 3
  · rw [if_pos h1, if_pos (show ¬(-1 ≤ r.noise ∧ r.noise ≤ 3) by omega)]; rfl
  rw [if_neg h1, if_neg (show ¬¬(-1 ≤ r.noise ∧ r.noise ≤ 3) by omega)]
  by_cases h2 : r.scale < 1 ∨ r.scale > 2
  · rw [if_pos h2, if_pos (show ¬(r.scale = 1 ∨ r.scale = 2) by omega)]; rfl
  rw [if_neg h2, if_neg (show ¬¬(r.scale = 1 ∨ r.scale = 2) by omega)]
  by_cases h3 : r.tile_w < 32
  · rw [if_pos h3, if_pos (show ¬32 ≤ r.tile_w by omega)]; rfl
  rw [if_neg h3, if_neg (show ¬¬32 ≤ r.tile_w by omega)]
  by_cases h4 : r.tile_h < 32
  · rw [if_pos h4, if_pos (show ¬32 ≤ r.tile_h by omega)]; rfl
  rw [if_neg h4, if_neg (show ¬¬32 ≤ r.tile_h by omega)]
  by_cases h5 : r.model < 0 ∨ r.model > 2
  · rw [if_pos h5, if_pos (show ¬(r.model = 0 ∨ r.model = 1 ∨ r.model = 2) by omega)]; rfl
  rw [if_neg h5, if_neg (show ¬¬(r.model = 0 ∨ r.model = 1 ∨ r.model = 2) by omega)]
  by_cases h6 : r.model ≠ 2 ∧ r.scale = 1
  · rw [if_pos h6, if_pos (show r.scale = 1 ∧ r.model ≠ 2 by omega)]; rfl
  rw [if_neg h6, if_neg (show ¬(r.scale = 1 ∧ r.model ≠ 2) by omega)]
  by_cases h7 : r.gpuId < 0 ∨ r.gpuId ≥ env.gpu_count
  · rw [if_pos h7, if_pos (show ¬(0 ≤ r.gpuId ∧ r.gpuId < env.gpu_count) by omega)]; rfl
  rw [if_neg h7, if_neg (show ¬¬(0 ≤ r.gpuId ∧ r.gpuId < env.gpu_count) by omega)]
  by_cases h8 : r.gpuThread < 1 ∨ r.gpuThread > env.compute_queue_count r.gpuId
  · rw [if_pos h8,
      if_pos (show ¬(1 ≤ r.gpuThread ∧ r.gpuThread ≤ env.compute_queue_count r.gpuId) by omega)]
    rfl
  rw [if_neg h8,
    if_neg (show ¬¬(1 ≤ r.gpuThread ∧ r.gpuThread ≤ env.compute_queue_count r.gpuId) by omega)]
  rfl

/-- C1: the claim states that the GPU-context reference count increments on
each successful construction, decrements on each teardown and on failed
constructions that had already incremented it — and only those — and that a
construction failing before the context was acquired does not decrement.
The code's catch handler decrements unconditionally, so the claim's last
part is violated: a default construction increments the count to 1 and
`waifu2xFree` brings it back to 0 destroying the context, but a
construction rejected by the input-format gate (which throws before
`++numGPUInstances`) still decrements — from 0 the count underflows to -1,
and from 1 (another live instance) it reaches 0 and the shared context is
destroyed under that live instance. -/
theorem C1_refcount_bug :
    ((waifu2xCreate emptyIn testEnv testVi 0).count = 1 ∧
      (waifu2xCreate emptyIn testEnv testVi 0).acquiredGPU = true ∧
      (waifu2xCreate emptyIn testEnv testVi 0).destroyedGPU = false) ∧
    waifu2xFree 1 = (0, true) ∧
    ((waifu2xCreate emptyIn testEnv badVi 0).acquiredGPU = false ∧
      (waifu2xCreate emptyIn testEnv badVi 0).count = -1) ∧
    ((waifu2xCreate emptyIn testEnv badVi 1).acquiredGPU = false ∧
      (waifu2xCreate emptyIn testEnv badVi 1).count = 0 ∧
      (waifu2xCreate emptyIn testEnv badVi 1).destroyedGPU = true) := by
  decide

/-- C2: for every filter instance produced by `waifu2xCreate`, the counting
semaphore holds exactly the resolved `gpu_thread` permits, and in every
reachable interleaving of any number of threads running `filter` — each of
which acquires a permit before calling the engine's `process` and releases
it afterwards, as encoded by `GateStep` — at most that many threads are
simultaneously inside the `process` call. -/
theorem C2_gate_bounds_concurrency (inm : InMap) (env : NcnnEnv) (vi : VSVideoInfo) (c0 : Int)
    (d : Waifu2xData) (h : (waifu2xCreate inm env vi c0).outcome = CreateOutcome.filter d)
    (n : Nat) (s : GateState)
    (hs : Relation.ReflTransGen GateStep (GateState.init d.semaphorePermits.toNat n) s) :
    s.nHolding ≤ d.semaphorePermits.toNat ∧
    d.semaphorePermits = (resolveOptions inm env vi).gpuThread := by
  have hsum := gate_sum_invariant d.semaphorePermits.toNat n s hs
  have hd := create_filter_inv inm env vi c0 d h
  subst hd
  exact ⟨by omega, rfl⟩

/-- C2 witness: the default construction against the test environment gives
a semaphore of capacity 2, and with 10 threads the initial gate state obeys
the bound. -/
theorem C2_witness :
    (GateState.init testFilterD.semaphorePermits.toNat 10).nHolding ≤
      testFilterD.semaphorePermits.toNat ∧
    testFilterD.semaphorePermits = (resolveOptions emptyIn testEnv testVi).gpuThread :=
  C2_gate_bounds_concurrency emptyIn testEnv testVi 0 testFilterD rfl 10 _
    Relation.ReflTransGen.refl

/-- C3: when noise resolves to -1 and scale to 1, `list_gpu` is not set, and
validation passes, construction short-circuits: the source node is forwarded
unchanged as the output (carrying the unmodified input geometry), no engine
is constructed, and the GPU context reference acquired during the call is
released (the count returns to its prior value). -/
theorem C3_passthrough (inm : InMap) (env : NcnnEnv) (vi : VSVideoInfo) (c0 : Int)
    (hfmt : formatOk vi = true) (hgpu : env.create_gpu_ok = true)
    (hval : validate (resolveOptions inm env vi) env = none)
    (hlist : mapGetInt inm.list_gpu = 0)
    (hnoise : (resolveOptions inm env vi).noise = -1)
    (hscale : (resolveOptions inm env vi).scale = 1) :
    (waifu2xCreate inm env vi c0).outcome = CreateOutcome.passThrough vi ∧
    (waifu2xCreate inm env vi c0).engineConstructed = false ∧
    (waifu2xCreate inm env vi c0).acquiredGPU = true ∧
    (waifu2xCreate inm env vi c0).count = c0 := by
  have e : waifu2xCreate inm env vi c0 =
      { outcome := CreateOutcome.passThrough vi, count := c0 + 1 - 1, acquiredGPU := true,
        destroyedGPU := decide (c0 + 1 - 1 = 0), engineConstructed := false } := by
    unfold waifu2xCreate createAfterGPU
    rw [if_pos hfmt, if_pos hgpu]
    simp only [hval]
    rw [if_neg (not_not_intro hlist), if_pos ⟨hnoise, hscale⟩]
  exact ⟨by rw [e], by rw [e], by rw [e], by rw [e]; show c0 + 1 - 1 = c0; omega⟩

/-- C3 witness: noise=-1, scale=1 against the test clip passes the source
through, constructs no engine, and balances the reference count. -/
theorem C3_witness :
    (waifu2xCreate inPass testEnv testVi 0).outcome = CreateOutcome.passThrough testVi ∧
    (waifu2xCreate inPass testEnv testVi 0).engineConstructed = false ∧
    (waifu2xCreate inPass testEnv testVi 0).acquiredGPU = true ∧
    (waifu2xCreate inPass testEnv testVi 0).count = 0 :=
  C3_passthrough inPass testEnv testVi 0 rfl rfl rfl rfl rfl rfl

/-- C4 counterexample: the claim says an absent `noise` option resolves to
-1, but with no `noise` argument the resolved noise level is 0 (the source
never substitutes a default for the 0 returned on a missing key). -/
theorem C4_counterexample :
    (resolveOptions emptyIn testEnv testVi).noise ≠ -1 := by
  decide

/-- C4 (amended): when the noise option is not supplied at construction, the
resolved noise level defaults to 0 (denoise level 0), not -1. -/
theorem C4_noise_default (inm : InMap) (env : NcnnEnv) (vi : VSVideoInfo)
    (h : inm.noise = none) :
    (resolveOptions inm env vi).noise = 0 := by
  simp [resolveOptions, h, mapGetIntSaturated]

/-- C4 witness: the empty argument map resolves noise to 0. -/
theorem C4_witness : (resolveOptions emptyIn testEnv testVi).noise = 0 :=
  C4_noise_default emptyIn testEnv testVi rfl

/-- C5: once the input-format gate and GPU-instance acquisition succeed, any
option set violating one of the constraints makes construction fail with the
error of the first violated constraint in the specification's stated order
(noise range, scale range, tile_w, tile_h, model range, scale=1 needs cunet,
device id, gpu_thread budget), and no filter object is created. -/
theorem C5_validation_order (inm : InMap) (env : NcnnEnv) (vi : VSVideoInfo) (c0 : Int)
    (v : Violation)
    (hfmt : formatOk vi = true) (hgpu : env.create_gpu_ok = true)
    (hv : firstViolation (resolveOptions inm env vi) env = some v) :
    (waifu2xCreate inm env vi c0).outcome =
      CreateOutcome.error
        ("waifu2x-ncnn-Vulkan: " ++ violationMsg (resolveOptions inm env vi) env v) ∧
    (waifu2xCreate inm env vi c0).outcome.filterData? = none ∧
    (waifu2xCreate inm env vi c0).engineConstructed = false := by
  have hval : validate (resolveOptions inm env vi) env =
      some (violationMsg (resolveOptions inm env vi) env v) := by
    rw [validate_eq_firstViolation, hv]; rfl
  have e : waifu2xCreate inm env vi c0 =
      errAfter (violationMsg (resolveOptions inm env vi) env v) (c0 + 1) := by
    unfold waifu2xCreate createAfterGPU
    rw [if_pos hfmt, if_pos hgpu]
    simp only [hval]
  exact ⟨by rw [e]; rfl, by rw [e]; rfl, by rw [e]; rfl⟩

/-- C5 witness: noise=4 fails with the noise-range message (the first
constraint in the order) and creates no filter object. -/
theorem C5_witness :
    (waifu2xCreate inNoise4 testEnv testVi 0).outcome =
      CreateOutcome.error
        ("waifu2x-ncnn-Vulkan: " ++
          violationMsg (resolveOptions inNoise4 testEnv testVi) testEnv Violation.noiseRange) ∧
    (waifu2xCreate inNoise4 testEnv testVi 0).outcome.filterData? = none ∧
    (waifu2xCreate inNoise4 testEnv testVi 0).engineConstructed = false :=
  C5_validation_order inNoise4 testEnv testVi 0 Violation.noiseRange rfl rfl rfl

/-- C6: for every construction that produces a filter instance, the derived
prepadding constant is 7 for model variants 0 and 1, and for variant 2
(cunet) it is 18 when noise is -1 or scale is 2 and 28 otherwise. -/
theorem C6_prepadding (inm : InMap) (env : NcnnEnv) (vi : VSVideoInfo) (c0 : Int)
    (d : Waifu2xData) (h : (waifu2xCreate inm env vi c0).outcome = CreateOutcome.filter d) :
    ((resolveOptions inm env vi).model = 0 ∨ (resolveOptions inm env vi).model = 1 →
      d.waifu2x.prepadding = 7) ∧
    ((resolveOptions inm env vi).model = 2 →
      d.waifu2x.prepadding =
        if (resolveOptions inm env vi).noise = -1 ∨ (resolveOptions inm env vi).scale = 2
        then 18 else 28) := by
  have hd := create_filter_inv inm env vi c0 d h
  subst hd
  constructor
  · rintro (h0 | h1)
    · simp [buildData, prepaddingFor, h0]
    · simp [buildData, prepaddingFor, h1]
  · intro h2
    simp [buildData, prepaddingFor, h2]

/-- C6 witness: the default construction (cunet, noise 0, scale 2) derives
prepadding 18. -/
theorem C6_witness :
    ((resolveOptions emptyIn testEnv testVi).model = 0 ∨
        (resolveOptions emptyIn testEnv testVi).model = 1 →
      testFilterD.waifu2x.prepadding = 7) ∧
    ((resolveOptions emptyIn testEnv testVi).model = 2 →
      testFilterD.waifu2x.prepadding =
        if (resolveOptions emptyIn testEnv testVi).noise = -1 ∨
            (resolveOptions emptyIn testEnv testVi).scale = 2
        then 18 else 28) :=
  C6_prepadding emptyIn testEnv testVi 0 testFilterD rfl

/-- C7: for every construction that produces a filter instance, the weight
paths are derived from the variant's model directory and (noise, scale): at
noise -1 the fixed scale2.0x artifact, otherwise at scale 1 a noise-only
artifact named by the noise level, otherwise a combined noise+scale2.0x
artifact named by the noise level. -/
theorem C7_weight_paths (inm : InMap) (env : NcnnEnv) (vi : VSVideoInfo) (c0 : Int)
    (d : Waifu2xData) (h : (waifu2xCreate inm env vi c0).outcome = CreateOutcome.filter d) :
    ((resolveOptions inm env vi).noise = -1 →
      d.waifu2x.paramPath =
        modelDirFor env (resolveOptions inm env vi).model ++ "/scale2.0x_model.param" ∧
      d.waifu2x.modelPath =
        modelDirFor env (resolveOptions inm env vi).model ++ "/scale2.0x_model.bin") ∧
    ((resolveOptions inm env vi).noise ≠ -1 → (resolveOptions inm env vi).scale = 1 →
      d.waifu2x.paramPath =
        modelDirFor env (resolveOptions inm env vi).model ++ "/noise" ++
          toString (resolveOptions inm env vi).noise ++ "_model.param" ∧
      d.waifu2x.modelPath =
        modelDirFor env (resolveOptions inm env vi).model ++ "/noise" ++
          toString (resolveOptions inm env vi).noise ++ "_model.bin") ∧
    ((resolveOptions inm env vi).noise ≠ -1 → (resolveOptions inm env vi).scale ≠ 1 →
      d.waifu2x.paramPath =
        modelDirFor env (resolveOptions inm env vi).model ++ "/noise" ++
          toString (resolveOptions inm env vi).noise ++ "_scale2.0x_model.param" ∧
      d.waifu2x.modelPath =
        modelDirFor env (resolveOptions inm env vi).model ++ "/noise" ++
          toString (resolveOptions inm env vi).noise ++ "_scale2.0x_model.bin") := by
  have hd := create_filter_inv inm env vi c0 d h
  subst hd
  refine ⟨fun hn => ?_, fun hn hs => ?_, fun hn hs => ?_⟩
  · constructor <;> simp [buildData, paramPathFor, modelPathFor, hn]
  · constructor <;> simp [buildData, paramPathFor, modelPathFor, hn, hs]
  · constructor <;> simp [buildData, paramPathFor, modelPathFor, hn, hs]

/-- C7 witness: the default construction (noise 0, scale 2) uses the
combined noise+scale2.0x artifacts of the cunet directory. -/
theorem C7_witness :
    ((resolveOptions emptyIn testEnv testVi).noise = -1 →
      testFilterD.waifu2x.paramPath =
        modelDirFor testEnv (resolveOptions emptyIn testEnv testVi).model ++
          "/scale2.0x_model.param" ∧
      testFilterD.waifu2x.modelPath =
        modelDirFor testEnv (resolveOptions emptyIn testEnv testVi).model ++
          "/scale2.0x_model.bin") ∧
    ((resolveOptions emptyIn testEnv testVi).noise ≠ -1 →
      (resolveOptions emptyIn testEnv testVi).scale = 1 →
      testFilterD.waifu2x.paramPath =
        modelDirFor testEnv (resolveOptions emptyIn testEnv testVi).model ++ "/noise" ++
          toString (resolveOptions emptyIn testEnv testVi).noise ++ "_model.param" ∧
      testFilterD.waifu2x.modelPath =
        modelDirFor testEnv (resolveOptions emptyIn testEnv testVi).model ++ "/noise" ++
          toString (resolveOptions emptyIn testEnv testVi).noise ++ "_model.bin") ∧
    ((resolveOptions emptyIn testEnv testVi).noise ≠ -1 →
      (resolveOptions emptyIn testEnv testVi).scale ≠ 1 →
      testFilterD.waifu2x.paramPath =
        modelDirFor testEnv (resolveOptions emptyIn testEnv testVi).model ++ "/noise" ++
          toString (resolveOptions emptyIn testEnv testVi).noise ++ "_scale2.0x_model.param" ∧
      testFilterD.waifu2x.modelPath =
        modelDirFor testEnv (resolveOptions emptyIn testEnv testVi).model ++ "/noise" ++
          toString (resolveOptions emptyIn testEnv testVi).noise ++ "_scale2.0x_model.bin") :=
  C7_weight_paths emptyIn testEnv testVi 0 testFilterD rfl

/-- C8 counterexample: the claim says an absent `tile_w` defaults to the
source frame width, but for a 16-pixel-wide clip the resolved tile width is
32, not 16 (the source clamps the default to at least 32). -/
theorem C8_counterexample :
    (resolveOptions emptyIn testEnv smallVi).tile_w ≠ smallVi.width := by
  decide

/-- C8 (amended): when the tile_w (respectively tile_h) option is not
supplied, it defaults to the source frame width (respectively height)
clamped below at 32, i.e. to max(dimension, 32); each default holds
independently of whether the other tile option is supplied. -/
theorem C8_tile_defaults (inm : InMap) (env : NcnnEnv) (vi : VSVideoInfo) :
    (inm.tile_w = none → (resolveOptions inm env vi).tile_w = max vi.width 32) ∧
    (inm.tile_h = none → (resolveOptions inm env vi).tile_h = max vi.height 32) := by
  constructor <;> intro h <;> simp [resolveOptions, h, mapGetIntSaturated]

/-- C8 witness: on the 16x16 clip, with tile_w absent while tile_h is
supplied the tile width still defaults to max(16, 32) = 32, and with
tile_h absent the tile height defaults to max(16, 32) = 32. -/
theorem C8_witness :
    (resolveOptions inTileH testEnv smallVi).tile_w = max smallVi.width 32 ∧
    (resolveOptions emptyIn testEnv smallVi).tile_h = max smallVi.height 32 :=
  ⟨(C8_tile_defaults inTileH testEnv smallVi).1 rfl,
   (C8_tile_defaults emptyIn testEnv smallVi).2 rfl⟩

/-- C9: with `list_gpu` set, validation passing and the text plugin
invocation succeeding, construction short-circuits: the output is the text
enumeration of all devices rather than a filter instance, no engine is
constructed, and the GPU context reference acquired during the call is
released. -/
theorem C9_listgpu (inm : InMap) (env : NcnnEnv) (vi : VSVideoInfo) (c0 : Int)
    (hfmt : formatOk vi = true) (hgpu : env.create_gpu_ok = true)
    (hval : validate (resolveOptions inm env vi) env = none)
    (hlist : mapGetInt inm.list_gpu ≠ 0)
    (hinv : env.text_invoke_error = none) :
    (waifu2xCreate inm env vi c0).outcome = CreateOutcome.listGPU (deviceListText env) ∧
    (waifu2xCreate inm env vi c0).engineConstructed = false ∧
    (waifu2xCreate inm env vi c0).acquiredGPU = true ∧
    (waifu2xCreate inm env vi c0).count = c0 := by
  have e : waifu2xCreate inm env vi c0 =
      { outcome := CreateOutcome.listGPU (deviceListText env), count := c0 + 1 - 1,
        acquiredGPU := true, destroyedGPU := decide (c0 + 1 - 1 = 0),
        engineConstructed := false } := by
    unfold waifu2xCreate createAfterGPU
    rw [if_pos hfmt, if_pos hgpu]
    simp only [hval]
    rw [if_pos hlist]
    simp only [hinv]
  exact ⟨by rw [e], by rw [e], by rw [e], by rw [e]; show c0 + 1 - 1 = c0; omega⟩

/-- C9 witness: `list_gpu=1` against the test environment emits the device
enumeration, constructs no engine, and balances the reference count. -/
theorem C9_witness :
    (waifu2xCreate inList testEnv testVi 0).outcome =
      CreateOutcome.listGPU (deviceListText testEnv) ∧
    (waifu2xCreate inList testEnv testVi 0).engineConstructed = false ∧
    (waifu2xCreate inList testEnv testVi 0).acquiredGPU = true ∧
    (waifu2xCreate inList testEnv testVi 0).count = 0 :=
  C9_listgpu inList testEnv testVi 0 rfl rfl rfl (by decide) rfl

/-- C10: every filter instance produced by `waifu2xCreate` has its engine
constructed with an engine-thread count of exactly 1, while the resolved
`gpu_thread` option sizes only the counting semaphore. -/
theorem C10_engine_threads (inm : InMap) (env : NcnnEnv) (vi : VSVideoInfo) (c0 : Int)
    (d : Waifu2xData) (h : (waifu2xCreate inm env vi c0).outcome = CreateOutcome.filter d) :
    d.waifu2x.num_threads = 1 ∧
    d.semaphorePermits = (resolveOptions inm env vi).gpuThread := by
  have hd := create_filter_inv inm env vi c0 d h
  subst hd
  exact ⟨rfl, rfl⟩

/-- C10 witness: the default construction has engine thread count 1 and
semaphore capacity equal to the resolved gpu_thread (2). -/
theorem C10_witness :
    testFilterD.waifu2x.num_threads = 1 ∧
    testFilterD.semaphorePermits = (resolveOptions emptyIn testEnv testVi).gpuThread :=
  C10_engine_threads emptyIn testEnv testVi 0 testFilterD rfl

end Waifu2x
